import Mathlib

/-!
Verification of the telemetry-to-haptic pipeline of `ursa-minor-ffb`
(`src/main.rs`): the per-tick intensity computation of `sim_worker`, the
write cadence of `hid_worker`, and the taxi-bound clamping in the UI
update.  Floating-point (`f64`/`f32`) values are modelled as exact
rationals; the only transcendental used by the source, `f64::sin`, always
appears as `sin(pi * x)` (the continuous ground rumble `sin(2*pi*8*t)` is
`sin(pi * (16*t))`), so the model abstracts it as a parameter
`sinpi : ℚ → ℚ` standing for `x ↦ sin(pi * x)`.
-/

namespace UrsaMinorFFB

/-- Rust `f64::clamp(lo, hi)` (every call site in the source has
`lo ≤ hi`, so the Rust assertion never fires). -/
def clampQ (x lo hi : ℚ) : ℚ := min (max x lo) hi

/-- Rust `f64::trunc`: rounding toward zero. -/
def truncQ (x : ℚ) : ℤ := if 0 ≤ x then ⌊x⌋ else ⌈x⌉

/-- Rust `f64::fract`: `x - x.trunc()`. -/
def fractQ (x : ℚ) : ℚ := x - truncQ x

/-- Rust `%` on `f64` (remainder with the sign of the dividend). -/
def fmodQ (x y : ℚ) : ℚ := x - y * truncQ (x / y)

/-- One decoded main telemetry sample (struct `FlightVars`,
`src/main.rs:234`). -/
structure FlightVars where
  sim_time_s : ℚ
  airspeed_indicated : ℚ
  on_ground : Bool
  bank_deg : ℚ
  flaps_pct : ℚ
  flaps_index : ℤ
  gear_handle : ℚ
  stalled : Bool
  ground_speed_kt : ℚ
  paused : Bool
deriving DecidableEq

/-- The zero sample (Rust `FlightVars::default()`). -/
def FlightVars.zero : FlightVars where
  sim_time_s := 0
  airspeed_indicated := 0
  on_ground := false
  bank_deg := 0
  flaps_pct := 0
  flaps_index := 0
  gear_handle := 0
  stalled := false
  ground_speed_kt := 0
  paused := false

/-- Tunable parameter set (struct `RumbleConfig`, `src/main.rs:248`);
`max_output` is a `u8` in the source. -/
structure RumbleConfig where
  base_airspeed : ℚ
  ground_roll : ℚ
  flaps_peak : ℚ
  gear_peak : ℚ
  stall_ceiling : ℚ
  bank : ℚ
  max_output : ℕ
  smoothing_alpha : ℚ
  ias_deadband_kn : ℚ
  taxi_start_kn : ℚ
  taxi_end_kn : ℚ
  thump_min_period_s : ℚ
  thump_max_period_s : ℚ
  thump_duty : ℚ
  flaps_bump_duration_s : ℚ
  flaps_bump_eps_pct : ℚ
  gear_bump_duration_s : ℚ
deriving DecidableEq

/-- `RumbleConfig::default()` (`src/main.rs:280`). -/
def RumbleConfig.defaults : RumbleConfig where
  base_airspeed := 16
  ground_roll := 38
  flaps_peak := 60
  gear_peak := 110
  stall_ceiling := 160
  bank := 70
  max_output := 255
  smoothing_alpha := 18/100
  ias_deadband_kn := 1
  taxi_start_kn := 3
  taxi_end_kn := 10
  thump_min_period_s := 25/100
  thump_max_period_s := 90/100
  thump_duty := 22/100
  flaps_bump_duration_s := 1
  flaps_bump_eps_pct := 2
  gear_bump_duration_s := 8/10

/-- Engine-local running state of `sim_worker` (locals declared at
`src/main.rs:1166`): smoothed background, config revision last seen,
flap and gear transient envelopes and previous discrete values. -/
structure EngineState where
  bg_smoothed : ℚ
  last_cfg_rev : ℕ
  prev_flaps_pct : ℚ
  prev_flaps_idx : ℤ
  flap_t0 : ℚ
  flap_t1 : ℚ
  flap_peak : ℚ
  prev_gear : ℚ
  gear_t0 : ℚ
  gear_t1 : ℚ
  gear_peak : ℚ
deriving DecidableEq

/-- Initial engine state (`src/main.rs:1166`, with `last_cfg_rev` read
from the config store at startup). -/
def EngineState.init (rev : ℕ) : EngineState where
  bg_smoothed := 0
  last_cfg_rev := rev
  prev_flaps_pct := 0
  prev_flaps_idx := 0
  flap_t0 := -1
  flap_t1 := -1
  flap_peak := 0
  prev_gear := 0
  gear_t0 := -1
  gear_t1 := -1
  gear_peak := 0

/-- Activation flags for the UI (struct `EffectsState`,
`src/main.rs:335`). -/
structure EffectsState where
  flaps_bump_active : Bool
  gear_bump_active : Bool
  ground_active : Bool
  ground_thump_active : Bool
  taxi_start_crossed : Bool
  taxi_end_crossed : Bool
  base_active : Bool
  bank_active : Bool
  stall_active : Bool
deriving DecidableEq

/-- `EffectsState::default()`: every flag false. -/
def EffectsState.init : EffectsState where
  flaps_bump_active := false
  gear_bump_active := false
  ground_active := false
  ground_thump_active := false
  taxi_start_crossed := false
  taxi_end_crossed := false
  base_active := false
  bank_active := false
  stall_active := false

/-- Effective lower taxi bound, `let start` at `src/main.rs:1313`. -/
def taxiStart (cfg : RumbleConfig) : ℚ :=
  min cfg.taxi_start_kn (cfg.taxi_end_kn - 1/10)

/-- Effective upper taxi bound, `let end` at `src/main.rs:1314`. -/
def taxiEnd (cfg : RumbleConfig) : ℚ :=
  max cfg.taxi_end_kn (taxiStart cfg + 1/10)

/-- Activation-flag writes performed on every main sample before the
pause check (`src/main.rs:1311`-`1341`). -/
def flagsUpdate (cfg : RumbleConfig) (eff : EffectsState) (fv : FlightVars) :
    EffectsState :=
  let gs := fv.ground_speed_kt
  let start := taxiStart cfg
  let endKn := taxiEnd cfg
  { eff with
      taxi_start_crossed := fv.on_ground && decide (start ≤ gs)
      taxi_end_crossed := fv.on_ground && decide (endKn ≤ gs)
      ground_thump_active := fv.on_ground && decide (start ≤ gs) && decide (gs < endKn)
      ground_active := fv.on_ground && decide (endKn ≤ gs)
      stall_active := fv.stalled
      bank_active := !fv.on_ground && decide (5 < |fv.bank_deg|)
      base_active := !fv.on_ground && decide (30 < fv.airspeed_indicated) }

/-- Flap-envelope update (`src/main.rs:1349`-`1368`): detent branch,
or percentage fallback.  Note `prev_flaps_pct` is only assigned in the
fallback branch of the source. -/
def flapUpdate (cfg : RumbleConfig) (st : EngineState) (fv : FlightVars) :
    EngineState :=
  if fv.flaps_index ≠ st.prev_flaps_idx then
    let steps : ℤ := max |fv.flaps_index - st.prev_flaps_idx| 1
    { st with
        flap_t0 := fv.sim_time_s
        flap_t1 := fv.sim_time_s + cfg.flaps_bump_duration_s * (steps : ℚ)
        flap_peak := cfg.flaps_peak
        prev_flaps_idx := fv.flaps_index }
  else
    let dflap := |fv.flaps_pct - st.prev_flaps_pct|
    let st1 :=
      if cfg.flaps_bump_eps_pct ≤ dflap then
        { st with
            flap_t0 := fv.sim_time_s
            flap_t1 := fv.sim_time_s + cfg.flaps_bump_duration_s
            flap_peak := cfg.flaps_peak * clampQ (dflap / (25/2)) (1/2) 1 }
      else st
    { st1 with prev_flaps_pct := fv.flaps_pct }

/-- Gear-envelope update (`src/main.rs:1371`-`1376`): trigger when the
handle moved at least 0.5 since the stored previous value; the previous
value is always refreshed afterwards. -/
def gearUpdate (cfg : RumbleConfig) (st : EngineState) (fv : FlightVars) :
    EngineState :=
  let st1 :=
    if (1/2 : ℚ) ≤ |fv.gear_handle - st.prev_gear| then
      { st with
          gear_t0 := fv.sim_time_s
          gear_t1 := fv.sim_time_s + cfg.gear_bump_duration_s
          gear_peak := cfg.gear_peak }
    else st
  { st1 with prev_gear := fv.gear_handle }

/-- Ground thump/rumble term (`src/main.rs:1381`-`1421`). -/
def groundTerm (cfg : RumbleConfig) (sinpi : ℚ → ℚ) (fv : FlightVars) : ℚ :=
  let gs := fv.ground_speed_kt
  let start := taxiStart cfg
  let endKn := taxiEnd cfg
  if fv.on_ground ∧ start ≤ gs then
    let t_norm := clampQ ((gs - start) / (endKn - start)) 0 1
    let period := cfg.thump_max_period_s
      - t_norm * (cfg.thump_max_period_s - cfg.thump_min_period_s)
    let cycle := fractQ (fv.sim_time_s / period)
    let duty := clampQ cfg.thump_duty (1/20) (2/5)
    let thump_env := if cycle < duty then sinpi (clampQ (cycle / duty) 0 1) else 0
    let amp := cfg.ground_roll * (7/20 + 13/20 * t_norm)
    if endKn ≤ gs then
      cfg.ground_roll * (sinpi (16 * fv.sim_time_s) * (1/2) + 1/2)
    else
      thump_env * amp
  else 0

/-- Airspeed + bank continuous term (`src/main.rs:1424`-`1432`). -/
def airTerm (cfg : RumbleConfig) (fv : FlightVars) : ℚ :=
  (if fv.on_ground = false ∧ 30 < fv.airspeed_indicated then
      clampQ (fv.airspeed_indicated / 250) 0 1 * cfg.base_airspeed
    else 0)
  + (if fv.on_ground = false then min |fv.bank_deg| 45 / 45 * cfg.bank else 0)

/-- Background smoothing (`src/main.rs:1434`-`1442`): snap on a config
revision change, otherwise exponential filter.  Returns the new
smoothed value and the new `last_cfg_rev`. -/
def bgSmoothedNext (cfg : RumbleConfig) (rev : ℕ) (sinpi : ℚ → ℚ)
    (st : EngineState) (fv : FlightVars) : ℚ × ℕ :=
  let bg := airTerm cfg fv + groundTerm cfg sinpi fv
  if rev ≠ st.last_cfg_rev then (bg, rev)
  else
    let alpha := clampQ cfg.smoothing_alpha 0 1
    (st.bg_smoothed + alpha * (bg - st.bg_smoothed), st.last_cfg_rev)

/-- `flap_active` at `src/main.rs:1449`. -/
def flapActive (st : EngineState) (t : ℚ) : Bool :=
  decide (st.flap_t0 ≤ t) && decide (t ≤ st.flap_t1) && decide (0 < st.flap_peak)

/-- `gear_active` at `src/main.rs:1452`. -/
def gearActive (st : EngineState) (t : ℚ) : Bool :=
  decide (st.gear_t0 ≤ t) && decide (t ≤ st.gear_t1) && decide (0 < st.gear_peak)

/-- Phase of the flap thump train (`src/main.rs:1458`-`1460`). -/
def flapPhase (cfg : RumbleConfig) (st : EngineState) (t : ℚ) : ℚ :=
  let period := max 1 cfg.flaps_bump_duration_s
  fmodQ (t - st.flap_t0) period / period

/-- Normalized elapsed time of the gear envelope (`src/main.rs:1464`). -/
def gearPhase (st : EngineState) (t : ℚ) : ℚ :=
  clampQ ((t - st.gear_t0) / (st.gear_t1 - st.gear_t0)) 0 1

/-- Output of one main-telemetry tick: the engine state and activation
flags after the tick, and the intensity sent in `SendIntensity`. -/
structure TickOutput where
  state : EngineState
  effects : EffectsState
  emit : ℕ
deriving DecidableEq

/-- One main-telemetry tick of `sim_worker`
(`src/main.rs:1311`-`1481`): activation flags are written first, then a
paused-or-held tick emits 0 and skips everything else; otherwise the
envelopes are updated, the background smoothed, transients and the
stall floor applied, and the clamped rounded total is emitted.
`total.round() as u8` is modelled by `(round total2).toNat` (the
clamped total lies in `[0, max_output]` with `max_output ≤ 255`, so the
Rust cast is exact). -/
def tick (cfg : RumbleConfig) (rev : ℕ) (hold : Bool) (sinpi : ℚ → ℚ)
    (st : EngineState) (eff : EffectsState) (fv : FlightVars) : TickOutput :=
  let eff1 := flagsUpdate cfg eff fv
  if fv.paused || hold then
    { state := st, effects := eff1, emit := 0 }
  else
    let st2 := gearUpdate cfg (flapUpdate cfg st fv) fv
    let bgNext := bgSmoothedNext cfg rev sinpi st fv
    let fa := flapActive st2 fv.sim_time_s
    let ga := gearActive st2 fv.sim_time_s
    let transients0 : ℚ := if fv.stalled then max 0 cfg.stall_ceiling else 0
    let transients1 :=
      if fa then transients0 + st2.flap_peak * sinpi (flapPhase cfg st2 fv.sim_time_s)
      else transients0
    let transients2 :=
      if ga then transients1 + st2.gear_peak * sinpi (gearPhase st2 fv.sim_time_s)
      else transients1
    let total0 := bgNext.1 + transients2
    let total1 := if fv.stalled then max total0 cfg.stall_ceiling else total0
    let total2 := clampQ total1 0 (cfg.max_output : ℚ)
    { state := { st2 with bg_smoothed := bgNext.1, last_cfg_rev := bgNext.2 }
      effects := { eff1 with flaps_bump_active := fa, gear_bump_active := ga }
      emit := (round total2).toNat }

/-- Folding `tick` over a sequence of main samples (the message loop of
`sim_worker`, holding `cfg`, `rev` and `hold` fixed). -/
def runTicks (cfg : RumbleConfig) (rev : ℕ) (hold : Bool) (sinpi : ℚ → ℚ) :
    EngineState → EffectsState → List FlightVars → EngineState × EffectsState
  | st, eff, [] => (st, eff)
  | st, eff, fv :: rest =>
      let o := tick cfg rev hold sinpi st eff fv
      runTicks cfg rev hold sinpi o.state o.effects rest

/-! Helper lemmas. -/

theorem roundQ_mono {x y : ℚ} (h : x ≤ y) : round x ≤ round y := by
  rw [round_eq, round_eq]
  exact Int.floor_le_floor (by linarith)

theorem round_clampQ_toNat_le (x : ℚ) (m : ℕ) :
    (round (clampQ x 0 (m : ℚ))).toNat ≤ m := by
  have h1 : clampQ x 0 (m : ℚ) ≤ (m : ℚ) := min_le_right _ _
  have h2 := roundQ_mono h1
  rw [round_natCast] at h2
  calc (round (clampQ x 0 (m : ℚ))).toNat
      ≤ ((m : ℤ)).toNat := Int.toNat_le_toNat h2
    _ = m := Int.toNat_natCast m

/-- The emitted intensity of any tick is at most `max_output`: a paused
or held tick emits 0, and otherwise the total is clamped to
`[0, max_output]` before rounding. -/
theorem tick_emit_le_max (cfg : RumbleConfig) (rev : ℕ) (hold : Bool)
    (sinpi : ℚ → ℚ) (st : EngineState) (eff : EffectsState) (fv : FlightVars) :
    (tick cfg rev hold sinpi st eff fv).emit ≤ cfg.max_output := by
  unfold tick
  split
  · exact Nat.zero_le _
  · exact round_clampQ_toNat_le _ _

/-- C1: on every main telemetry tick that reaches the emit step (not
paused, not held) the intensity sent in the `SendIntensity` command
satisfies `0 ≤ intensity ≤ max_output`, for arbitrary snapshot fields,
envelope state and configuration gains. -/
theorem c1_emit_bounded (cfg : RumbleConfig) (rev : ℕ) (sinpi : ℚ → ℚ)
    (st : EngineState) (eff : EffectsState) (fv : FlightVars)
    (hp : fv.paused = false) :
    0 ≤ (tick cfg rev false sinpi st eff fv).emit ∧
    (tick cfg rev false sinpi st eff fv).emit ≤ cfg.max_output :=
  ⟨Nat.zero_le _, tick_emit_le_max cfg rev false sinpi st eff fv⟩

/-- Witness for C1 at a concrete unpaused, unheld tick. -/
theorem c1_emit_bounded_witness :
    0 ≤ (tick RumbleConfig.defaults 1 false (fun _ => 0) (EngineState.init 1)
        EffectsState.init FlightVars.zero).emit ∧
    (tick RumbleConfig.defaults 1 false (fun _ => 0) (EngineState.init 1)
        EffectsState.init FlightVars.zero).emit ≤ RumbleConfig.defaults.max_output :=
  c1_emit_bounded RumbleConfig.defaults 1 (fun _ => 0) (EngineState.init 1)
    EffectsState.init FlightVars.zero rfl

/-- C2: on a paused tick (either pause source) the engine emits
intensity 0 and the flap and gear transient-envelope state
(start time, end time, peak) is unchanged. -/
theorem c2_pause_emits_zero_keeps_envelopes (cfg : RumbleConfig) (rev : ℕ)
    (hold : Bool) (sinpi : ℚ → ℚ) (st : EngineState) (eff : EffectsState)
    (fv : FlightVars) (hp : fv.paused = true) :
    (tick cfg rev hold sinpi st eff fv).emit = 0 ∧
    (tick cfg rev hold sinpi st eff fv).state.flap_t0 = st.flap_t0 ∧
    (tick cfg rev hold sinpi st eff fv).state.flap_t1 = st.flap_t1 ∧
    (tick cfg rev hold sinpi st eff fv).state.flap_peak = st.flap_peak ∧
    (tick cfg rev hold sinpi st eff fv).state.gear_t0 = st.gear_t0 ∧
    (tick cfg rev hold sinpi st eff fv).state.gear_t1 = st.gear_t1 ∧
    (tick cfg rev hold sinpi st eff fv).state.gear_peak = st.gear_peak := by
  simp [tick, hp]

/-- Paused sample (with live envelopes in the state) for the C2 witness. -/
def stC2 : EngineState :=
  { EngineState.init 1 with
      flap_t0 := 4
      flap_t1 := 6
      flap_peak := 60
      gear_t0 := 5
      gear_t1 := 29/5
      gear_peak := 110 }

/-- Witness for C2 at a concrete paused tick. -/
theorem c2_pause_emits_zero_keeps_envelopes_witness :
    (tick RumbleConfig.defaults 1 false (fun _ => 0) stC2 EffectsState.init
        { FlightVars.zero with paused := true }).emit = 0 ∧
    (tick RumbleConfig.defaults 1 false (fun _ => 0) stC2 EffectsState.init
        { FlightVars.zero with paused := true }).state.flap_t0 = stC2.flap_t0 ∧
    (tick RumbleConfig.defaults 1 false (fun _ => 0) stC2 EffectsState.init
        { FlightVars.zero with paused := true }).state.flap_t1 = stC2.flap_t1 ∧
    (tick RumbleConfig.defaults 1 false (fun _ => 0) stC2 EffectsState.init
        { FlightVars.zero with paused := true }).state.flap_peak = stC2.flap_peak ∧
    (tick RumbleConfig.defaults 1 false (fun _ => 0) stC2 EffectsState.init
        { FlightVars.zero with paused := true }).state.gear_t0 = stC2.gear_t0 ∧
    (tick RumbleConfig.defaults 1 false (fun _ => 0) stC2 EffectsState.init
        { FlightVars.zero with paused := true }).state.gear_t1 = stC2.gear_t1 ∧
    (tick RumbleConfig.defaults 1 false (fun _ => 0) stC2 EffectsState.init
        { FlightVars.zero with paused := true }).state.gear_peak = stC2.gear_peak :=
  c2_pause_emits_zero_keeps_envelopes RumbleConfig.defaults 1 false (fun _ => 0)
    stC2 EffectsState.init { FlightVars.zero with paused := true } rfl

/-- Paused, stalled sample used to settle C3. -/
def fvC3 : FlightVars := { FlightVars.zero with paused := true, stalled := true }

/-- C3 counterexample: on a paused tick the engine still emits zero, but
the stall activation flag IS updated (activation flags are written
before the pause check at `src/main.rs:1311`-`1341`), refuting the
claim that no activation flag is updated on such a tick. -/
theorem c3_counterexample :
    fvC3.paused = true ∧
    (tick RumbleConfig.defaults 1 false (fun _ => 0) (EngineState.init 1)
        EffectsState.init fvC3).emit = 0 ∧
    (tick RumbleConfig.defaults 1 false (fun _ => 0) (EngineState.init 1)
        EffectsState.init fvC3).effects.stall_active
      ≠ EffectsState.init.stall_active := by
  with_unfolding_all decide

/-- C3 amended: on a paused or held tick the engine emits 0, the engine
state (smoothed background, envelopes, previous discrete values) is
untouched and the flap-bump and gear-bump flags keep their previous
values, but the taxi/ground/base/bank/stall activation flags are still
written from the snapshot (e.g. the stall flag becomes the sample's
stalled bit), because those writes precede the pause check. -/
theorem c3_amended (cfg : RumbleConfig) (rev : ℕ) (hold : Bool)
    (sinpi : ℚ → ℚ) (st : EngineState) (eff : EffectsState) (fv : FlightVars)
    (h : (fv.paused || hold) = true) :
    (tick cfg rev hold sinpi st eff fv).emit = 0 ∧
    (tick cfg rev hold sinpi st eff fv).state = st ∧
    (tick cfg rev hold sinpi st eff fv).effects.flaps_bump_active
      = eff.flaps_bump_active ∧
    (tick cfg rev hold sinpi st eff fv).effects.gear_bump_active
      = eff.gear_bump_active ∧
    (tick cfg rev hold sinpi st eff fv).effects.stall_active = fv.stalled := by
  simp [tick, h, flagsUpdate]

/-- Witness for the amended C3 at a concrete held tick. -/
theorem c3_amended_witness :
    (tick RumbleConfig.defaults 1 true (fun _ => 0) (EngineState.init 1)
        EffectsState.init FlightVars.zero).emit = 0 ∧
    (tick RumbleConfig.defaults 1 true (fun _ => 0) (EngineState.init 1)
        EffectsState.init FlightVars.zero).state = EngineState.init 1 ∧
    (tick RumbleConfig.defaults 1 true (fun _ => 0) (EngineState.init 1)
        EffectsState.init FlightVars.zero).effects.flaps_bump_active
      = EffectsState.init.flaps_bump_active ∧
    (tick RumbleConfig.defaults 1 true (fun _ => 0) (EngineState.init 1)
        EffectsState.init FlightVars.zero).effects.gear_bump_active
      = EffectsState.init.gear_bump_active ∧
    (tick RumbleConfig.defaults 1 true (fun _ => 0) (EngineState.init 1)
        EffectsState.init FlightVars.zero).effects.stall_active
      = FlightVars.zero.stalled :=
  c3_amended RumbleConfig.defaults 1 true (fun _ => 0) (EngineState.init 1)
    EffectsState.init FlightVars.zero rfl

/-- Degenerate oscillator model `sinpi0 = fun x => 0`, used for concrete
evaluations at points where the real `sin(pi * x)` also vanishes
(`sin 0 = 0`). -/
def sinpi0 : ℚ → ℚ := fun _ => 0

theorem round_clampQ_toNat_mono {x y : ℚ} (m : ℕ) (h : x ≤ y) :
    (round (clampQ x 0 (m : ℚ))).toNat ≤ (round (clampQ y 0 (m : ℚ))).toNat :=
  Int.toNat_le_toNat (roundQ_mono (min_le_min (max_le_max h le_rfl) le_rfl))

/-- Config for settling C4: zero smoothing so the smoothed background
keeps its previous value, integer stall ceiling 100. -/
def cfgC4 : RumbleConfig :=
  { RumbleConfig.defaults with smoothing_alpha := 0, stall_ceiling := 100 }

/-- Engine state with a nonzero smoothed background for C4. -/
def stC4 : EngineState := { EngineState.init 1 with bg_smoothed := 10 }

/-- Stalled, unpaused sample for C4. -/
def fvC4 : FlightVars := { FlightVars.zero with stalled := true }

/-- C4 counterexample: stalled tick, no active flap or gear envelope,
smoothed background 10, stall ceiling 100: the emitted intensity is
`110`, not exactly the (clamped) stall ceiling `100` — the smoothed
background is added on top of the stall floor. -/
theorem c4_counterexample :
    fvC4.stalled = true ∧
    (tick cfgC4 1 false sinpi0 stC4 EffectsState.init fvC4).effects.flaps_bump_active
      = false ∧
    (tick cfgC4 1 false sinpi0 stC4 EffectsState.init fvC4).effects.gear_bump_active
      = false ∧
    (tick cfgC4 1 false sinpi0 stC4 EffectsState.init fvC4).emit = 110 ∧
    (tick cfgC4 1 false sinpi0 stC4 EffectsState.init fvC4).emit
      ≠ (round (clampQ cfgC4.stall_ceiling 0 (cfgC4.max_output : ℚ))).toNat := by
  with_unfolding_all decide

/-- C4 amended: on an unpaused, unheld, stalled tick the emitted
intensity is at least the stall ceiling clamped to `[0, max_output]`
and rounded; and when no flap or gear envelope is active the emitted
intensity equals the rounded clamp of
`max(smoothed_background + max(0, ceiling), ceiling)` — i.e. exactly
the ceiling only when the smoothed background contributes nothing. -/
theorem c4_amended (cfg : RumbleConfig) (rev : ℕ) (sinpi : ℚ → ℚ)
    (st : EngineState) (eff : EffectsState) (fv : FlightVars)
    (hp : fv.paused = false) (hs : fv.stalled = true) :
    (round (clampQ cfg.stall_ceiling 0 (cfg.max_output : ℚ))).toNat
      ≤ (tick cfg rev false sinpi st eff fv).emit ∧
    (flapActive (gearUpdate cfg (flapUpdate cfg st fv) fv) fv.sim_time_s = false →
      gearActive (gearUpdate cfg (flapUpdate cfg st fv) fv) fv.sim_time_s = false →
      (tick cfg rev false sinpi st eff fv).emit
        = (round (clampQ
            (max ((bgSmoothedNext cfg rev sinpi st fv).1 + max 0 cfg.stall_ceiling)
              cfg.stall_ceiling) 0 (cfg.max_output : ℚ))).toNat) := by
  constructor
  · simp only [tick, hp, hs, Bool.false_or, Bool.or_false, if_false, if_true,
      ite_true, ite_false, Bool.false_eq_true, reduceIte]
    exact round_clampQ_toNat_mono _ (le_max_right _ _)
  · intro hfa hga
    simp only [tick, hp, hs, hfa, hga, Bool.false_or, Bool.or_false,
      Bool.false_eq_true, reduceIte]

/-- Witness for the amended C4 at the same concrete stalled tick. -/
theorem c4_amended_witness :
    (round (clampQ cfgC4.stall_ceiling 0 (cfgC4.max_output : ℚ))).toNat
      ≤ (tick cfgC4 1 false sinpi0 stC4 EffectsState.init fvC4).emit ∧
    (tick cfgC4 1 false sinpi0 stC4 EffectsState.init fvC4).emit
      = (round (clampQ
          (max ((bgSmoothedNext cfgC4 1 sinpi0 stC4 fvC4).1 + max 0 cfgC4.stall_ceiling)
            cfgC4.stall_ceiling) 0 (cfgC4.max_output : ℚ))).toNat := by
  have h := c4_amended cfgC4 1 sinpi0 stC4 EffectsState.init fvC4 rfl rfl
  exact ⟨h.1, h.2 (by with_unfolding_all decide) (by with_unfolding_all decide)⟩

theorem taxiStart_le (cfg : RumbleConfig) :
    taxiStart cfg ≤ cfg.taxi_end_kn - 1/10 :=
  min_le_right _ _

/-- The effective upper taxi bound always equals the configured end
threshold (the `max` with `start + 0.1` never bites). -/
theorem taxiEnd_eq (cfg : RumbleConfig) : taxiEnd cfg = cfg.taxi_end_kn :=
  max_eq_left (by have := taxiStart_le cfg; linarith)

/-- On-ground, high-ground-speed sample at sim time 0 for C5. -/
def fvC5 : FlightVars :=
  { FlightVars.zero with on_ground := true, ground_speed_kt := 15 }

/-- C5 counterexample: with the default curve at `sim_time_s = 0` (where
the real oscillator gives `sin(2*pi*8*0) = 0`, matching `sinpi0`), the
code's continuous ground term is `ground_roll * (0*0.5 + 0.5) = 19`,
not the claimed half-rectified value `ground_roll * max 0 (sin ...) = 0`. -/
theorem c5_counterexample :
    fvC5.on_ground = true ∧
    RumbleConfig.defaults.taxi_end_kn ≤ fvC5.ground_speed_kt ∧
    groundTerm RumbleConfig.defaults sinpi0 fvC5 = 19 ∧
    RumbleConfig.defaults.ground_roll * max 0 (sinpi0 (16 * fvC5.sim_time_s)) = 0 ∧
    groundTerm RumbleConfig.defaults sinpi0 fvC5
      ≠ RumbleConfig.defaults.ground_roll * max 0 (sinpi0 (16 * fvC5.sim_time_s)) := by
  with_unfolding_all decide

/-- C5 amended: on the ground at or above the taxi end threshold the
ground term is the raised (offset) 8 Hz sine
`ground_roll * (sin(2*pi*8*t) * 0.5 + 0.5)` — not half-rectified — a
value ranging over `[0, ground_roll]`, with no thump shaping applied. -/
theorem c5_amended (cfg : RumbleConfig) (sinpi : ℚ → ℚ) (fv : FlightVars)
    (hg : fv.on_ground = true) (he : cfg.taxi_end_kn ≤ fv.ground_speed_kt)
    (hs : ∀ x, -1 ≤ sinpi x ∧ sinpi x ≤ 1) (hr : 0 ≤ cfg.ground_roll) :
    groundTerm cfg sinpi fv
      = cfg.ground_roll * (sinpi (16 * fv.sim_time_s) * (1/2) + 1/2) ∧
    0 ≤ groundTerm cfg sinpi fv ∧
    groundTerm cfg sinpi fv ≤ cfg.ground_roll := by
  have hstart : taxiStart cfg ≤ fv.ground_speed_kt := by
    have := taxiStart_le cfg; linarith
  have hend : taxiEnd cfg ≤ fv.ground_speed_kt := by rw [taxiEnd_eq]; exact he
  have hgt : groundTerm cfg sinpi fv
      = cfg.ground_roll * (sinpi (16 * fv.sim_time_s) * (1/2) + 1/2) := by
    simp only [groundTerm]
    rw [if_pos ⟨hg, hstart⟩, if_pos hend]
  have h1 := (hs (16 * fv.sim_time_s)).1
  have h2 := (hs (16 * fv.sim_time_s)).2
  refine ⟨hgt, ?_, ?_⟩
  · rw [hgt]
    exact mul_nonneg hr (by linarith)
  · rw [hgt]
    exact mul_le_of_le_one_right hr (by linarith)

/-- Witness for the amended C5 at a concrete on-ground fast-taxi tick. -/
theorem c5_amended_witness :
    groundTerm RumbleConfig.defaults sinpi0 fvC5
      = RumbleConfig.defaults.ground_roll
        * (sinpi0 (16 * fvC5.sim_time_s) * (1/2) + 1/2) ∧
    0 ≤ groundTerm RumbleConfig.defaults sinpi0 fvC5 ∧
    groundTerm RumbleConfig.defaults sinpi0 fvC5
      ≤ RumbleConfig.defaults.ground_roll :=
  c5_amended RumbleConfig.defaults sinpi0 fvC5 rfl
    (by with_unfolding_all decide)
    (fun x => ⟨(by with_unfolding_all decide : (-1 : ℚ) ≤ 0),
      (by with_unfolding_all decide : (0 : ℚ) ≤ 1)⟩)
    (by with_unfolding_all decide)

/-- `gearUpdate` never touches the flap-envelope fields or the previous
flap values. -/
theorem gearUpdate_flap_fields (cfg : RumbleConfig) (st : EngineState)
    (fv : FlightVars) :
    (gearUpdate cfg st fv).flap_t0 = st.flap_t0 ∧
    (gearUpdate cfg st fv).flap_t1 = st.flap_t1 ∧
    (gearUpdate cfg st fv).flap_peak = st.flap_peak ∧
    (gearUpdate cfg st fv).prev_flaps_pct = st.prev_flaps_pct ∧
    (gearUpdate cfg st fv).prev_flaps_idx = st.prev_flaps_idx := by
  unfold gearUpdate
  split <;> simp

/-- Unpaused sample with a flap-detent change (0 to 2) and a flap
percentage change (0 to 50) in the same tick, for C6 and C7. -/
def fvC6 : FlightVars :=
  { FlightVars.zero with sim_time_s := 5, flaps_index := 2, flaps_pct := 50 }

/-- C6 counterexample: on an unpaused tick with a detent change but with
the global hold flag set, no flap envelope is started (the hold gate
skips the whole computation), refuting the claim for unpaused ticks in
general. -/
theorem c6_counterexample :
    fvC6.paused = false ∧
    fvC6.flaps_index ≠ (EngineState.init 1).prev_flaps_idx ∧
    (tick RumbleConfig.defaults 1 true sinpi0 (EngineState.init 1)
        EffectsState.init fvC6).state.flap_t0 ≠ fvC6.sim_time_s := by
  with_unfolding_all decide

/-- C6 amended: on every unpaused AND unheld tick whose flap detent
differs from the stored previous detent, a flap envelope is started
with start time `sim_time_s`, end time
`sim_time_s + N * flaps_bump_duration_s` for `N` the absolute detent
difference, and peak the configured flap peak. -/
theorem c6_amended (cfg : RumbleConfig) (rev : ℕ) (sinpi : ℚ → ℚ)
    (st : EngineState) (eff : EffectsState) (fv : FlightVars)
    (hp : fv.paused = false) (hd : fv.flaps_index ≠ st.prev_flaps_idx) :
    (tick cfg rev false sinpi st eff fv).state.flap_t0 = fv.sim_time_s ∧
    (tick cfg rev false sinpi st eff fv).state.flap_t1
      = fv.sim_time_s + cfg.flaps_bump_duration_s
          * ((|fv.flaps_index - st.prev_flaps_idx| : ℤ) : ℚ) ∧
    (tick cfg rev false sinpi st eff fv).state.flap_peak = cfg.flaps_peak := by
  have hsteps : max |fv.flaps_index - st.prev_flaps_idx| 1
      = |fv.flaps_index - st.prev_flaps_idx| :=
    max_eq_left (Int.one_le_abs (sub_ne_zero.mpr hd))
  obtain ⟨g1, g2, g3, -, -⟩ := gearUpdate_flap_fields cfg (flapUpdate cfg st fv) fv
  simp only [tick, hp, Bool.false_or, Bool.or_false, Bool.false_eq_true, reduceIte]
  refine ⟨?_, ?_, ?_⟩
  · rw [g1]; simp [flapUpdate, hd]
  · rw [g2]; simp [flapUpdate, hd, hsteps]
  · rw [g3]; simp [flapUpdate, hd]

/-- Witness for the amended C6 at a concrete two-detent change. -/
theorem c6_amended_witness :
    (tick RumbleConfig.defaults 1 false sinpi0 (EngineState.init 1)
        EffectsState.init fvC6).state.flap_t0 = fvC6.sim_time_s ∧
    (tick RumbleConfig.defaults 1 false sinpi0 (EngineState.init 1)
        EffectsState.init fvC6).state.flap_t1
      = fvC6.sim_time_s + RumbleConfig.defaults.flaps_bump_duration_s
          * ((|fvC6.flaps_index - (EngineState.init 1).prev_flaps_idx| : ℤ) : ℚ) ∧
    (tick RumbleConfig.defaults 1 false sinpi0 (EngineState.init 1)
        EffectsState.init fvC6).state.flap_peak = RumbleConfig.defaults.flaps_peak :=
  c6_amended RumbleConfig.defaults 1 sinpi0 (EngineState.init 1)
    EffectsState.init fvC6 rfl (by with_unfolding_all decide)

/-- C7 counterexample: on an unpaused tick where the detent changes and
the percentage also changes, the stored previous flap percentage is NOT
updated to the tick's value (the assignment sits only in the fallback
branch of the source), refuting the claim that it is updated on every
unpaused tick regardless of branch. -/
theorem c7_counterexample :
    fvC6.paused = false ∧
    (tick RumbleConfig.defaults 1 false sinpi0 (EngineState.init 1)
        EffectsState.init fvC6).state.prev_flaps_pct ≠ fvC6.flaps_pct := by
  with_unfolding_all decide

/-- C7 amended: on an unpaused, unheld tick the stored previous flap
percentage is updated to the tick's `flaps_pct` only when the
detent-change branch did NOT fire; when the detent changed, it is left
unchanged, so a coinciding percentage change is not consumed and can
still trigger the fallback envelope on a later tick. -/
theorem c7_amended (cfg : RumbleConfig) (rev : ℕ) (sinpi : ℚ → ℚ)
    (st : EngineState) (eff : EffectsState) (fv : FlightVars)
    (hp : fv.paused = false) :
    (fv.flaps_index = st.prev_flaps_idx →
      (tick cfg rev false sinpi st eff fv).state.prev_flaps_pct = fv.flaps_pct) ∧
    (fv.flaps_index ≠ st.prev_flaps_idx →
      (tick cfg rev false sinpi st eff fv).state.prev_flaps_pct
        = st.prev_flaps_pct) := by
  obtain ⟨-, -, -, g4, -⟩ := gearUpdate_flap_fields cfg (flapUpdate cfg st fv) fv
  constructor <;> intro hd <;>
    simp only [tick, hp, Bool.false_or, Bool.or_false, Bool.false_eq_true,
      reduceIte] <;>
    rw [g4] <;> simp [flapUpdate, hd]

/-- Witness for the amended C7: a detent change leaves the stored
percentage untouched, and a no-detent tick refreshes it. -/
theorem c7_amended_witness :
    (tick RumbleConfig.defaults 1 false sinpi0 (EngineState.init 1)
        EffectsState.init fvC6).state.prev_flaps_pct
      = (EngineState.init 1).prev_flaps_pct ∧
    (tick RumbleConfig.defaults 1 false sinpi0 (EngineState.init 1)
        EffectsState.init { FlightVars.zero with flaps_pct := 50 }).state.prev_flaps_pct
      = ({ FlightVars.zero with flaps_pct := 50 } : FlightVars).flaps_pct :=
  ⟨(c7_amended RumbleConfig.defaults 1 sinpi0 (EngineState.init 1)
      EffectsState.init fvC6 rfl).2 (by with_unfolding_all decide),
   (c7_amended RumbleConfig.defaults 1 sinpi0 (EngineState.init 1)
      EffectsState.init { FlightVars.zero with flaps_pct := 50 } rfl).1 rfl⟩

/-- Value of the mutable `end` just before the end-slider row in one
frame of the taxi-bound slider block (`src/main.rs:652`-`663`):
`us`/`ue` are the values produced when the corresponding slider was
dragged this frame (`none` when untouched). -/
def uiTaxiEnd2 (start0 end0 : ℚ) (us ue : Option ℚ) : ℚ :=
  let start := us.getD start0
  let end1 := if end0 - 1/2 ≤ start then min (start + 1/2) 60 else end0
  ue.getD end1

/-- Value of the mutable `start` after the second nudge
(`src/main.rs:666`-`669`). -/
def uiTaxiStart1 (start0 end0 : ℚ) (us ue : Option ℚ) : ℚ :=
  let start := us.getD start0
  let end2 := uiTaxiEnd2 start0 end0 us ue
  if end2 ≤ start + 1/2 then max (end2 - 1/2) 0 else start

/-- The written-back `(taxi_start_kn, taxi_end_kn)` of one frame of the
taxi-bound slider block (`src/main.rs:639`-`674`). -/
def uiTaxiFrame (start0 end0 : ℚ) (us ue : Option ℚ) : ℚ × ℚ :=
  let s := clampQ (uiTaxiStart1 start0 end0 us ue) 0 59
  (s, clampQ (uiTaxiEnd2 start0 end0 us ue) (s + 1/2) 60)

theorem uiTaxiFrame_gap (start0 end0 : ℚ) (us ue : Option ℚ) :
    (uiTaxiFrame start0 end0 us ue).1 + 1/2 ≤ (uiTaxiFrame start0 end0 us ue).2 := by
  have hs : clampQ (uiTaxiStart1 start0 end0 us ue) 0 59 ≤ 59 := min_le_right _ _
  show clampQ (uiTaxiStart1 start0 end0 us ue) 0 59 + 1/2
      ≤ clampQ (uiTaxiEnd2 start0 end0 us ue)
          (clampQ (uiTaxiStart1 start0 end0 us ue) 0 59 + 1/2) 60
  unfold clampQ
  unfold clampQ at hs
  exact le_min (le_max_right _ _) (by linarith)

theorem uiTaxiFrame_raise (start0 end0 u : ℚ) (h0 : 0 ≤ u) (h20 : u ≤ 20)
    (hr : end0 - 1/2 < u) :
    uiTaxiFrame start0 end0 (some u) none = (u, u + 1/2) ∧ end0 < u + 1/2 := by
  have hend2 : uiTaxiEnd2 start0 end0 (some u) none = u + 1/2 := by
    show (if end0 - 1/2 ≤ u then min (u + 1/2) 60 else end0) = u + 1/2
    rw [if_pos (le_of_lt hr), min_eq_left (by linarith)]
  have hstart1 : uiTaxiStart1 start0 end0 (some u) none = u := by
    show (if uiTaxiEnd2 start0 end0 (some u) none ≤ u + 1/2
        then max (uiTaxiEnd2 start0 end0 (some u) none - 1/2) 0 else u) = u
    rw [hend2, if_pos le_rfl, show u + 1/2 - 1/2 = u by ring]
    exact max_eq_left h0
  have hs : clampQ (uiTaxiStart1 start0 end0 (some u) none) 0 59 = u := by
    rw [hstart1]
    show min (max u 0) 59 = u
    rw [max_eq_left h0, min_eq_left (by linarith)]
  refine ⟨?_, by linarith⟩
  show (clampQ (uiTaxiStart1 start0 end0 (some u) none) 0 59,
      clampQ (uiTaxiEnd2 start0 end0 (some u) none)
        (clampQ (uiTaxiStart1 start0 end0 (some u) none) 0 59 + 1/2) 60)
    = (u, u + 1/2)
  rw [hs, hend2]
  show (u, min (max (u + 1/2) (u + 1/2)) 60) = (u, u + 1/2)
  rw [max_self, min_eq_left (by linarith)]

theorem uiTaxiFrame_lower (start0 end0 v : ℚ) (h1 : 1 ≤ v) (h60 : v ≤ 60)
    (h59 : start0 ≤ 59) (hl : v < start0 + 1/2) :
    uiTaxiFrame start0 end0 none (some v) = (v - 1/2, v) ∧ v - 1/2 < start0 := by
  have hend2 : uiTaxiEnd2 start0 end0 none (some v) = v := rfl
  have hstart1 : uiTaxiStart1 start0 end0 none (some v) = v - 1/2 := by
    show (if uiTaxiEnd2 start0 end0 none (some v) ≤ start0 + 1/2
        then max (uiTaxiEnd2 start0 end0 none (some v) - 1/2) 0 else start0) = v - 1/2
    rw [hend2, if_pos (le_of_lt hl)]
    exact max_eq_left (by linarith)
  have hs : clampQ (uiTaxiStart1 start0 end0 none (some v)) 0 59 = v - 1/2 := by
    rw [hstart1]
    show min (max (v - 1/2) 0) 59 = v - 1/2
    rw [max_eq_left (by linarith), min_eq_left (by linarith)]
  refine ⟨?_, by linarith⟩
  show (clampQ (uiTaxiStart1 start0 end0 none (some v)) 0 59,
      clampQ (uiTaxiEnd2 start0 end0 none (some v))
        (clampQ (uiTaxiStart1 start0 end0 none (some v)) 0 59 + 1/2) 60)
    = (v - 1/2, v)
  rw [hs, hend2]
  show (v - 1/2, min (max v (v - 1/2 + 1/2)) 60) = (v - 1/2, v)
  rw [show v - 1/2 + 1/2 = v by ring, max_self, min_eq_left h60]

/-- C8: after any mutation through the UI slider path the written-back
bounds satisfy `taxi_start_kn + 0.5 ≤ taxi_end_kn` (hence strictly
ordered); raising the start slider (range `0..=20`) above
`taxi_end_kn - 0.5` forces the end bound up to exactly `start + 0.5`;
lowering the end slider (range `1..=60`) below `taxi_start_kn + 0.5`
forces the start bound down to exactly `end - 0.5`. -/
theorem c8_taxi_gap_enforced :
    (∀ (start0 end0 : ℚ) (us ue : Option ℚ),
      (uiTaxiFrame start0 end0 us ue).1 + 1/2 ≤ (uiTaxiFrame start0 end0 us ue).2 ∧
      (uiTaxiFrame start0 end0 us ue).1 < (uiTaxiFrame start0 end0 us ue).2) ∧
    (∀ start0 end0 u : ℚ, 0 ≤ u → u ≤ 20 → end0 - 1/2 < u →
      uiTaxiFrame start0 end0 (some u) none = (u, u + 1/2) ∧ end0 < u + 1/2) ∧
    (∀ start0 end0 v : ℚ, 1 ≤ v → v ≤ 60 → start0 ≤ 59 → v < start0 + 1/2 →
      uiTaxiFrame start0 end0 none (some v) = (v - 1/2, v) ∧ v - 1/2 < start0) :=
  ⟨fun start0 end0 us ue =>
    ⟨uiTaxiFrame_gap start0 end0 us ue, by
      have := uiTaxiFrame_gap start0 end0 us ue; linarith⟩,
   uiTaxiFrame_raise, uiTaxiFrame_lower⟩

/-- Witness for C8: the default bounds `(3, 10)` keep the gap; raising
the start slider to 15 pushes the end to 15.5; lowering the end slider
to 2 pulls the start to 1.5. -/
theorem c8_taxi_gap_enforced_witness :
    ((uiTaxiFrame 3 10 none none).1 + 1/2 ≤ (uiTaxiFrame 3 10 none none).2) ∧
    (uiTaxiFrame 3 10 (some 15) none = (15, 15 + 1/2) ∧ (10 : ℚ) < 15 + 1/2) ∧
    (uiTaxiFrame 3 10 none (some 2) = (2 - 1/2, 2) ∧ (2 : ℚ) - 1/2 < 3) :=
  ⟨(c8_taxi_gap_enforced.1 3 10 none none).1,
   c8_taxi_gap_enforced.2.1 3 10 15 (by with_unfolding_all decide)
     (by with_unfolding_all decide) (by with_unfolding_all decide),
   c8_taxi_gap_enforced.2.2 3 10 2 (by with_unfolding_all decide)
     (by with_unfolding_all decide) (by with_unfolding_all decide)
     (by with_unfolding_all decide)⟩

/-- Commands accepted by the device output worker (`enum HidCmd`,
`src/main.rs:222`; the raw payload bytes are irrelevant here). -/
inductive HidCmd where
  | sendIntensity (level : ℕ)
  | sendRaw
  | stopAll
  | reopenDevices
  | setHold (x : Bool)
deriving DecidableEq

/-- Mutable state of `hid_worker` (`src/main.rs:882`-`885`):
`desired_intensity`, `last_sent_intensity` and the hold flag; the
`last_send` timestamp is abstracted into the `due` flag of `hidStep`. -/
structure HidState where
  desired : ℕ
  lastSent : ℕ
  hold : Bool
deriving DecidableEq

/-- Initial worker state (`desired = 0`, `last_sent = 255`). -/
def HidState.init : HidState where
  desired := 0
  lastSent := 255
  hold := false

/-- Effect of one received command (`src/main.rs:922`-`943`): new state,
intensities written immediately (engaging hold writes one zero), and
whether the command rewinds the cadence timer (`StopAll`). -/
def hidHandleCmd (st : HidState) (cmd : HidCmd) : HidState × List ℕ × Bool :=
  match cmd with
  | .sendIntensity level => ({ st with desired := level }, [], false)
  | .sendRaw => (st, [], false)
  | .stopAll => ({ st with desired := 0 }, [], true)
  | .setHold x =>
      if x then ({ st with hold := true, lastSent := 0 }, [0], false)
      else ({ st with hold := false }, [], false)
  | .reopenDevices => (st, [], false)

/-- Cadence block (`src/main.rs:950`-`957`): when the 50 ms interval has
elapsed, write the effective intensity (0 while holding) if it differs
from the last written value. -/
def hidCadence (st : HidState) (due : Bool) : HidState × List ℕ :=
  if due then
    let out := if st.hold then 0 else st.desired
    if out ≠ st.lastSent then ({ st with lastSent := out }, [out])
    else (st, [])
  else (st, [])

/-- One iteration of the worker loop (`src/main.rs:920`-`958`): receive
at most one command, then run the cadence block. -/
def hidStep (st : HidState) (cmd : Option HidCmd) (due : Bool) :
    HidState × List ℕ :=
  match cmd with
  | none => hidCadence st due
  | some c =>
      let h := hidHandleCmd st c
      let w := hidCadence h.1 (due || h.2.2)
      (w.1, h.2.1 ++ w.2)

/-- Several iterations of the worker loop, collecting all writes. -/
def hidRun (st : HidState) : List (Option HidCmd × Bool) → HidState × List ℕ
  | [] => (st, [])
  | e :: rest =>
      let s := hidStep st e.1 e.2
      let r := hidRun s.1 rest
      (r.1, s.2 ++ r.2)

/-- C9: for the output worker while not holding: a cadence tick whose
effective intensity equals the last written value performs no write
(so two equal `SendIntensity` commands inside one cadence window cause
at most one write), and a cadence tick whose effective intensity
differs always writes it (and records it as last written). -/
theorem c9_cadence_dedup :
    (∀ st : HidState, st.hold = false → st.desired = st.lastSent →
      (hidStep st none true).2 = []) ∧
    (∀ st : HidState, st.hold = false → st.desired ≠ st.lastSent →
      (hidStep st none true).2 = [st.desired] ∧
      (hidStep st none true).1.lastSent = st.desired) ∧
    (∀ (st : HidState) (v : ℕ), st.hold = false →
      ((hidRun st [(some (HidCmd.sendIntensity v), false),
        (some (HidCmd.sendIntensity v), false), (none, true)]).2).length ≤ 1) := by
  refine ⟨?_, ?_, ?_⟩
  · intro st h he
    simp [hidStep, hidCadence, h, he]
  · intro st h hne
    simp [hidStep, hidCadence, h, hne]
  · intro st v h
    by_cases hv : v = st.lastSent <;>
      simp [hidRun, hidStep, hidHandleCmd, hidCadence, h, hv]

/-- Witness for C9 at concrete worker states. -/
theorem c9_cadence_dedup_witness :
    (hidStep { HidState.init with desired := 255 } none true).2 = [] ∧
    ((hidStep HidState.init none true).2 = [HidState.init.desired] ∧
      (hidStep HidState.init none true).1.lastSent = HidState.init.desired) ∧
    ((hidRun { HidState.init with lastSent := 7 }
        [(some (HidCmd.sendIntensity 7), false),
         (some (HidCmd.sendIntensity 7), false), (none, true)]).2).length ≤ 1 :=
  ⟨c9_cadence_dedup.1 { HidState.init with desired := 255 } rfl rfl,
   c9_cadence_dedup.2.1 HidState.init rfl (by with_unfolding_all decide),
   c9_cadence_dedup.2.2 { HidState.init with lastSent := 7 } 7 rfl⟩

/-- `flapUpdate` never touches the gear-envelope fields or the stored
previous gear value. -/
theorem flapUpdate_gear_fields (cfg : RumbleConfig) (st : EngineState)
    (fv : FlightVars) :
    (flapUpdate cfg st fv).prev_gear = st.prev_gear ∧
    (flapUpdate cfg st fv).gear_t0 = st.gear_t0 ∧
    (flapUpdate cfg st fv).gear_t1 = st.gear_t1 ∧
    (flapUpdate cfg st fv).gear_peak = st.gear_peak := by
  unfold flapUpdate
  split
  · simp
  · by_cases hc : cfg.flaps_bump_eps_pct ≤ |fv.flaps_pct - st.prev_flaps_pct| <;>
      simp [hc]

/-- When the gear handle moved less than 0.5, `gearUpdate` only
refreshes the stored previous gear value. -/
theorem gearUpdate_no_trigger (cfg : RumbleConfig) (st : EngineState)
    (fv : FlightVars)
    (hd : ¬ ((1/2 : ℚ) ≤ |fv.gear_handle - st.prev_gear|)) :
    gearUpdate cfg st fv = { st with prev_gear := fv.gear_handle } := by
  simp only [gearUpdate]
  rw [if_neg hd]

/-- A tick that is unpaused and unheld, and whose gear handle moved less
than 0.5 from the stored previous value, leaves the gear envelope
untouched and refreshes the stored previous gear value. -/
theorem tick_gear_env_frozen (cfg : RumbleConfig) (rev : ℕ) (sinpi : ℚ → ℚ)
    (st : EngineState) (eff : EffectsState) (fv : FlightVars)
    (hp : fv.paused = false) (hd : |fv.gear_handle - st.prev_gear| < 1/2) :
    (tick cfg rev false sinpi st eff fv).state.gear_t0 = st.gear_t0 ∧
    (tick cfg rev false sinpi st eff fv).state.gear_t1 = st.gear_t1 ∧
    (tick cfg rev false sinpi st eff fv).state.gear_peak = st.gear_peak ∧
    (tick cfg rev false sinpi st eff fv).state.prev_gear = fv.gear_handle := by
  obtain ⟨f1, f2, f3, f4⟩ := flapUpdate_gear_fields cfg st fv
  have hd1 : ¬ ((1/2 : ℚ) ≤ |fv.gear_handle - (flapUpdate cfg st fv).prev_gear|) := by
    rw [f1]; linarith
  have hg := gearUpdate_no_trigger cfg (flapUpdate cfg st fv) fv hd1
  simp only [tick, hp, Bool.false_or, Bool.or_false, Bool.false_eq_true,
    reduceIte, hg]
  exact ⟨f2, f3, f4, trivial⟩

/-- C10 amended: over any run of main samples that are all unpaused
(and with the global hold clear) in which the gear handle moves less
than 0.5 between the stored starting value and each consecutive pair of
samples, no gear envelope is ever started. -/
theorem c10_amended (cfg : RumbleConfig) (rev : ℕ) (sinpi : ℚ → ℚ)
    (st : EngineState) (eff : EffectsState) (fvs : List FlightVars)
    (hp : ∀ fv ∈ fvs, fv.paused = false)
    (hch : List.Chain (fun a b => |b - a| < 1/2) st.prev_gear
      (fvs.map FlightVars.gear_handle)) :
    (runTicks cfg rev false sinpi st eff fvs).1.gear_t0 = st.gear_t0 ∧
    (runTicks cfg rev false sinpi st eff fvs).1.gear_t1 = st.gear_t1 ∧
    (runTicks cfg rev false sinpi st eff fvs).1.gear_peak = st.gear_peak := by
  induction fvs generalizing st eff with
  | nil => exact ⟨rfl, rfl, rfl⟩
  | cons fv rest ih =>
      rw [List.map_cons] at hch
      cases hch with
      | cons hrel hch1 =>
        have hpfv : fv.paused = false := hp fv (List.mem_cons_self _ _)
        obtain ⟨g0, g1, g2, g3⟩ :=
          tick_gear_env_frozen cfg rev sinpi st eff fv hpfv hrel
        have hrest := ih (tick cfg rev false sinpi st eff fv).state
          (tick cfg rev false sinpi st eff fv).effects
          (fun x hx => hp x (List.mem_cons_of_mem _ hx))
          (by rw [g3]; exact hch1)
        simp only [runTicks]
        exact ⟨hrest.1.trans g0, hrest.2.1.trans g1, hrest.2.2.trans g2⟩

/-- Witness for the amended C10 on a two-sample slow retraction. -/
theorem c10_amended_witness :
    (runTicks RumbleConfig.defaults 1 false sinpi0 (EngineState.init 1)
        EffectsState.init
        [{ FlightVars.zero with gear_handle := 1/5 },
         { FlightVars.zero with sim_time_s := 1, gear_handle := 2/5 }]).1.gear_t0
      = (EngineState.init 1).gear_t0 ∧
    (runTicks RumbleConfig.defaults 1 false sinpi0 (EngineState.init 1)
        EffectsState.init
        [{ FlightVars.zero with gear_handle := 1/5 },
         { FlightVars.zero with sim_time_s := 1, gear_handle := 2/5 }]).1.gear_t1
      = (EngineState.init 1).gear_t1 ∧
    (runTicks RumbleConfig.defaults 1 false sinpi0 (EngineState.init 1)
        EffectsState.init
        [{ FlightVars.zero with gear_handle := 1/5 },
         { FlightVars.zero with sim_time_s := 1, gear_handle := 2/5 }]).1.gear_peak
      = (EngineState.init 1).gear_peak :=
  c10_amended RumbleConfig.defaults 1 sinpi0 (EngineState.init 1)
    EffectsState.init _
    (by with_unfolding_all decide)
    (List.Chain.cons (by with_unfolding_all decide)
      (List.Chain.cons (by with_unfolding_all decide) List.Chain.nil))

/-- Gear samples for the C10 counterexample: the handle moves 0 → 0.4
(during a paused tick) → 0.8; every consecutive-sample delta is below
0.5, yet the envelope fires because the paused tick does not refresh
the stored previous gear value. -/
def fvG1 : FlightVars :=
  { FlightVars.zero with sim_time_s := 1, gear_handle := 2/5, paused := true }

/-- Second gear sample of the C10 counterexample. -/
def fvG2 : FlightVars :=
  { FlightVars.zero with sim_time_s := 2, gear_handle := 4/5 }

/-- C10 counterexample: a sequence whose consecutive-sample gear deltas
are all below 0.5 nevertheless starts a gear envelope, because the
middle sample is paused and the stored previous gear value is only
refreshed on unpaused, unheld ticks. -/
theorem c10_counterexample :
    List.Chain (fun a b => |b - a| < (1/2 : ℚ)) (EngineState.init 1).prev_gear
      ([fvG1, fvG2].map FlightVars.gear_handle) ∧
    (runTicks RumbleConfig.defaults 1 false sinpi0 (EngineState.init 1)
        EffectsState.init [fvG1, fvG2]).1.gear_t0
      ≠ (EngineState.init 1).gear_t0 := by
  constructor
  · exact List.Chain.cons (by with_unfolding_all decide)
      (List.Chain.cons (by with_unfolding_all decide) List.Chain.nil)
  · with_unfolding_all decide

end UrsaMinorFFB
